import Mathlib

/-!
Shallow embedding of the engineering-metrics Jira adapter module
(engineeringmetrics/adapters/adapters.py) and proofs about it.

Conventions of the embedding:
- Calendar dates are day numbers (Int) in the proleptic Gregorian calendar
  with 1970-01-01 as day 0 (which was a Thursday).
- Python datetime values are a calendar date plus a time-of-day payload;
  comparison is lexicographic, and the date method is the days projection.
- numpy busday_count is modelled over day numbers: it counts the weekdays
  in the half-open interval from the start date to the end date, and is
  the negated count of the swapped interval when the end precedes the start.
- Fallible Python code is modelled with Except over an error type that
  distinguishes TypeError, KeyError and ValueError.
-/

/-- Day number of a civil date (proleptic Gregorian, 1970-01-01 = day 0).
Standard days-from-civil algorithm. -/
def daysFromCivil (y m d : Int) : Int :=
  let y2 := if m ≤ 2 then y - 1 else y
  let era := (if 0 ≤ y2 then y2 else y2 - 399) / 400
  let yoe := y2 - era * 400
  let mp := (m + 9) % 12
  let doy := (153 * mp + 2) / 5 + d - 1
  let doe := yoe * 365 + yoe / 4 - yoe / 100 + doy
  era * 146097 + doe - 719468

/-- Day 0 (1970-01-01) is a Thursday; weekday code 0 = Thu, 1 = Fri, 2 = Sat,
3 = Sun, 4 = Mon, 5 = Tue, 6 = Wed.  A business day is any day that is not
Saturday or Sunday (numpy default week mask, no holidays). -/
def isBusday (z : Int) : Bool :=
  let w := (z % 7 + 7) % 7
  !(w == 2 || w == 3)

/-- Number of business days among the n consecutive days starting at z. -/
def countBusdays : Int → Nat → Nat
  | _, 0 => 0
  | z, Nat.succ n => (if isBusday z then 1 else 0) + countBusdays (z + 1) n

/-- Model of numpy busday_count on two day numbers: weekday count over the
half-open interval from s to e; negated count of the swapped interval when
e precedes s. -/
def np_busday_count (s e : Int) : Int :=
  if s ≤ e then (countBusdays s (e - s).toNat : Int)
  else -((countBusdays e (s - e).toNat : Int))

/-- A Python datetime: calendar date (day number) plus time of day in
microseconds.  Comparison is lexicographic, as in Python. -/
structure DateTime where
  days : Int
  usecs : Nat
deriving DecidableEq

/-- Boolean less-or-equal on datetimes (lexicographic date then time),
matching Python datetime comparison, used as the sort key comparator. -/
def dtLe (a b : DateTime) : Bool :=
  if a.days < b.days then true
  else if b.days < a.days then false
  else decide (a.usecs ≤ b.usecs)

/-- Python runtime values that can sit in the flow-log dictionaries and be
passed to numpy.  vDate is a datetime.date, vDatetime a full datetime. -/
inductive PyVal where
  | vDate (z : Int)
  | vDatetime (dt : DateTime)
  | vStr (s : String)
  | vInt (n : Int)
  | vNone
deriving DecidableEq

/-- Model of the Python str() coercion on the values above. -/
def pyStr : PyVal → String
  | .vDate z => "date " ++ toString z
  | .vDatetime dt => "datetime " ++ toString dt.days
  | .vStr s => s
  | .vInt n => toString n
  | .vNone => "None"

/-- Python exceptions relevant to this module. -/
inductive PyErr where
  | typeError (msg : String)
  | keyError (key : String)
  | valueError (msg : String)
deriving DecidableEq

/-- Conversion numpy applies to each busday_count argument.  Only genuine
date values convert; a full datetime fails the cast from microsecond to day
resolution, None becomes NaT which is rejected, and the raw Jira timestamp
strings of this repository carry a time of day, so their cast to day
resolution is rejected as well.  Integers are not datetime-like. -/
def npToDate : PyVal → Except PyErr Int
  | .vDate z => .ok z
  | .vDatetime _ =>
      .error (.typeError "Iterator operand dtype could not be cast from datetime64 us to datetime64 D")
  | .vNone => .error (.valueError "cannot compute business days with NaT")
  | .vStr _ =>
      .error (.typeError "Iterator operand dtype could not be cast from datetime64 with time unit to datetime64 D")
  | .vInt _ => .error (.typeError "invalid type promotion to datetime64")

/-- numpy busday_count applied to arbitrary Python values, converting the
first operand, then the second, then counting. -/
def np_busday_count_py (a b : PyVal) : Except PyErr Int := do
  let d1 ← npToDate a
  let d2 ← npToDate b
  pure (np_busday_count d1 d2)

/-- One entry of a flow log: the dictionary the source code appends, after
its state value has been coerced with str().  duration is absent until the
interval is closed. -/
structure FlowEntry where
  entered_at : DateTime
  state : String
  duration : Option Int
deriving DecidableEq

/-- Comparator used by the sort in FlowLog.append (sort key entered_at). -/
def entryLe (a b : FlowEntry) : Bool := dtLe a.entered_at b.entered_at

/-- The same comparator as a decidable relation, for the sort. -/
def entryRel (a b : FlowEntry) : Prop := entryLe a b = true

instance : DecidableRel entryRel := fun a b => instDecidableEqBool (entryLe a b) true

set_option linter.unnecessarySeqFocus false in
theorem dtLe_total (a b : DateTime) : dtLe a b = true ∨ dtLe b a = true := by
  unfold dtLe
  split_ifs <;> simp_all <;> omega

set_option linter.unnecessarySeqFocus false in
theorem dtLe_trans {a b c : DateTime} (h1 : dtLe a b = true) (h2 : dtLe b c = true) :
    dtLe a c = true := by
  unfold dtLe at h1 h2 ⊢
  split_ifs at h1 h2 ⊢ <;> simp_all <;> omega

instance : IsTotal FlowEntry entryRel :=
  ⟨fun a b => dtLe_total a.entered_at b.entered_at⟩

instance : IsTrans FlowEntry entryRel :=
  ⟨fun _ _ _ h1 h2 => dtLe_trans h1 h2⟩

/-- The raw dictionary handed to FlowLog.append: each key may be absent. -/
structure PyDict where
  entered_at : Option PyVal
  state : Option PyVal
  duration : Option Int
deriving DecidableEq

/-- An arbitrary Python object handed to FlowLog.append: either a dict or
something with no keys method (which triggers the AttributeError branch). -/
inductive PyObj where
  | dict (d : PyDict)
  | nonDict (txt : String)
deriving DecidableEq

/-- Model of FlowLog.append, line by line from the source:
1. the keys-membership expression only raises (caught AttributeError, then
   TypeError) when the value is not a dict; its boolean result is discarded;
2. the entered_at lookup raises an uncaught KeyError when the key is absent;
3. subtracting entered_at from now raises (caught, then TypeError) unless
   entered_at is a datetime;
4. the state lookup raises an uncaught KeyError when the key is absent;
   str() then always succeeds;
5. the entry is appended and the whole list is sorted (Python list.sort is
   a stable sort keyed on entered_at) — modelled with the stable
   insertionSort, which agrees with every stable sort extensionally. -/
def FlowLog.append (log : List FlowEntry) (value : PyObj) : Except PyErr (List FlowEntry) :=
  match value with
  | .nonDict t =>
      .error (.typeError ("Flow log items must have a entered_at datetime and a state string. Got: " ++ t))
  | .dict d =>
    match d.entered_at with
    | none => .error (.keyError "entered_at")
    | some ea =>
      match ea with
      | .vDatetime dt =>
        match d.state with
        | none => .error (.keyError "state")
        | some sv => .ok (List.insertionSort entryRel (log ++ [⟨dt, pyStr sv, d.duration⟩]))
      | _ =>
        .error (.typeError ("Flow log items must have a entered_at datetime. Got: " ++ pyStr ea))

/-- The success path of FlowLog.append for an already well-formed entry:
append then stable sort by entered_at. -/
def appendEntry (log : List FlowEntry) (e : FlowEntry) : List FlowEntry :=
  List.insertionSort entryRel (log ++ [e])

/-- One item of a changelog history: a changed field and its new value
(the toString attribute of the Jira history item). -/
structure HistoryItem where
  field : String
  toString : String
deriving DecidableEq

/-- One changelog history: its creation timestamp and its items. -/
structure History where
  created : DateTime
  items : List HistoryItem
deriving DecidableEq

/-- The status-change events of a changelog, in native history order: for
every history, for every item whose field is status, the pair of the
history creation timestamp and the item toString value. -/
def statusEvents (histories : List History) : List (DateTime × String) :=
  (histories.map (fun h =>
    h.items.filterMap (fun it =>
      if it.field == "status" then some (h.created, it.toString) else none))).flatten

/-- Durations assigned by the changelog loop of JiraIssue.__init__: each
status event except the last is closed to the next status event (dates
only), and the last is closed to today.  The seeded Created entry is never
the previous item of the loop, so it is never closed. -/
def assignDurations (today : Int) : List (DateTime × String) → List FlowEntry
  | [] => []
  | [(t, s)] => [⟨t, s, some (np_busday_count t.days today)⟩]
  | (t, s) :: (t2, s2) :: rest =>
      ⟨t, s, some (np_busday_count t.days t2.days)⟩ :: assignDurations today ((t2, s2) :: rest)

/-- The flow log built by JiraIssue.__init__.  In the source the duration of
each appended dictionary is set by a later mutation of the same object;
since the sort key is entered_at only, the final list equals the fold of
the validated appends over the entries carrying their final duration
values.  A missing changelog (AttributeError, silently passed) leaves the
single seeded entry. -/
def buildFlowLog (created : DateTime) (changelog : Option (List History)) (today : Int) :
    List FlowEntry :=
  let seeded := appendEntry [] ⟨created, "Created", none⟩
  match changelog with
  | none => seeded
  | some histories => (assignDurations today (statusEvents histories)).foldl appendEntry seeded

/-- The fields attribute of a raw Jira issue, as consumed by
JiraIssue.__init__.  The created and updated strings arrive already parsed
to datetimes (the external dateutil parse call is modelled as done);
resolutiondate is kept as the raw ISO timestamp string exactly as the
source keeps it. -/
structure RawIssueFields where
  issuetype : Option String
  summary : String
  labels : List String
  created : DateTime
  updated : DateTime
  resolution : Option String
  resolutiondate : Option String
  assignee : Option String
  description : Option String
  priority : String
  status : String
  fixVersions : List String
deriving DecidableEq

/-- A raw Jira issue.  changelog = none models the AttributeError branch of
the source (no changelog supplied by the search). -/
structure RawIssue where
  id : String
  key : String
  permalink : String
  fields : RawIssueFields
  changelog : Option (List History)
deriving DecidableEq

/-- The dictionary state of a JiraIssue after __init__ completes, together
with its flow log. -/
structure JiraIssueRec where
  ttype : String
  id : String
  key : String
  url : String
  summary : String
  labels : List String
  created : DateTime
  updated_at : Option DateTime
  resolution : Option String
  resolutiondate : Option String
  assignee : Option String
  description : Option String
  priority : String
  status : String
  fixVersion : Option String
  flow_log : List FlowEntry
deriving DecidableEq

/-- JiraIssue.__init__: normalizes the raw issue.  Notable source facts
modelled faithfully: the issue type falls back to the literal Ticket when
the type attribute is missing; priority keeps only the text before the
first colon of its str() form; fixVersion is the head of fixVersions, if
any; updated_at is assigned from the issue and then overwritten with None
two lines later; the flow log is built per buildFlowLog. -/
def mkJiraIssue (today : Int) (issue : RawIssue) : JiraIssueRec :=
  { ttype := issue.fields.issuetype.getD "Ticket"
    id := issue.id
    key := issue.key
    url := issue.permalink
    summary := issue.fields.summary
    labels := issue.fields.labels
    created := issue.fields.created
    updated_at := none
    resolution := issue.fields.resolution
    resolutiondate := issue.fields.resolutiondate
    assignee := issue.fields.assignee
    description := issue.fields.description
    priority := (issue.fields.priority.splitOn ":").headD ""
    status := issue.fields.status
    fixVersion := issue.fields.fixVersions.head?
    flow_log := buildFlowLog issue.fields.created issue.changelog today }

/-- JiraIssue.cycleTime, verbatim from the source: numpy busday_count
applied to the stored created value (a full datetime) and the stored
resolutiondate value (the raw string, or None when absent). -/
def cycleTime (t : JiraIssueRec) : Except PyErr Int :=
  np_busday_count_py (.vDatetime t.created)
    (match t.resolutiondate with
     | some s => .vStr s
     | none => .vNone)

/-- Where the issues attribute of a JQLResult points: either the one shared
mutable default-argument list (issues constructed without an explicit
issues argument) or an own list passed explicitly. -/
inductive IssuesRef where
  | sharedDefault
  | own (issues : List JiraIssueRec)
deriving DecidableEq

/-- A JQLResult: query text, label, and the issues reference. -/
structure JQLResultRec where
  query : String
  label : String
  issuesRef : IssuesRef
deriving DecidableEq

/-- A JiraProject: a JQLResult whose label is the project name, plus the
project key and name.  Constructed without an issues argument, so its
issues reference is always the shared default list. -/
structure JiraProjectRec where
  query : String
  label : String
  key : String
  name : String
  issuesRef : IssuesRef
deriving DecidableEq

/-- A value stored in the flat internal datastore dictionary: the projects
table, the initial issues entry (an empty dict never written to), or a
JQLResult stored by populate_from_jql. -/
inductive StoreVal where
  | projTable (m : String → Option JiraProjectRec)
  | issueTable
  | qres (r : JQLResultRec)

/-- Metadata of a Jira project as returned by the client. -/
structure ProjMeta where
  key : String
  name : String

/-- The external Jira client: project metadata lookup and issue search
(query text and optional maxResults cap; the source passes 10 for project
population and no cap for JQL population). -/
structure Client where
  project : String → ProjMeta
  search_issues : String → Option Nat → List RawIssue

/-- The mutable state of a Jira adapter instance: its flat datastore
dictionary, plus the process-wide shared default-argument issues list of
JQLResult.__init__. -/
structure JiraState where
  datastore : String → Option StoreVal
  sharedIssues : List JiraIssueRec

/-- The state right after Jira.__init__ on a fresh process: the datastore
holds an empty issues dict and an empty projects dict, and the shared
default list is empty. -/
def initJiraState : JiraState :=
  { datastore := fun k =>
      if k = "projects" then some (.projTable (fun _ => none))
      else if k = "issues" then some .issueTable
      else none
    sharedIssues := [] }

/-- Dereference an issues reference in a given state. -/
def readIssues (st : JiraState) : IssuesRef → List JiraIssueRec
  | .sharedDefault => st.sharedIssues
  | .own l => l

/-- The query string built per project id in _getJiraIssuesForProjects. -/
def projectQuery (pid : String) : String :=
  "project = \"" ++ pid ++ "\" ORDER BY priority DESC"

/-- One iteration of the loop of _getJiraIssuesForProjects: fetch project
metadata, build a JiraProject (issues reference = shared default list),
search with maxResults 10, wrap each raw issue and append it — through the
reference, hence onto the shared default list — then record the project
only when the dereferenced issues list is non-empty. -/
def processProject (client : Client) (today : Int)
    (acc : (String → Option JiraProjectRec) × JiraState) (pid : String) :
    (String → Option JiraProjectRec) × JiraState :=
  let ibp := acc.fst
  let st := acc.snd
  let pdata := client.project pid
  let qs := projectQuery pid
  let proj : JiraProjectRec :=
    { query := qs, label := pdata.name, key := pdata.key, name := pdata.name
      issuesRef := .sharedDefault }
  let kts := (client.search_issues qs (some 10)).map (mkJiraIssue today)
  let st2 : JiraState := { st with sharedIssues := st.sharedIssues ++ kts }
  if (readIssues st2 proj.issuesRef).length ≠ 0 then
    (fun k => if k = pid then some proj else ibp k, st2)
  else (ibp, st2)

/-- Jira._getJiraIssuesForProjects: fold the per-project step over the
requested ids, starting from an empty result dictionary. -/
def getJiraIssuesForProjects (client : Client) (today : Int) (pids : List String)
    (st : JiraState) : (String → Option JiraProjectRec) × JiraState :=
  pids.foldl (processProject client today) (fun _ => none, st)

/-- Jira.populate_projects: fetch, then merge into the projects entry of
the datastore with Python double-splat semantics (new keys win), and
return the newly fetched dictionary.  Reading a clobbered or missing
projects entry raises. -/
def populate_projects (client : Client) (today : Int) (pids : List String)
    (st : JiraState) : Except PyErr ((String → Option JiraProjectRec) × JiraState) :=
  let res := getJiraIssuesForProjects client today pids st
  let projects := res.fst
  let st2 := res.snd
  match st2.datastore "projects" with
  | some (.projTable old) =>
      let merged : String → Option JiraProjectRec := fun p =>
        match projects p with
        | some v => some v
        | none => old p
      .ok (projects,
        { st2 with datastore := fun k =>
            if k = "projects" then some (.projTable merged) else st2.datastore k })
  | some .issueTable => .ok (projects,
      { st2 with datastore := fun k =>
          if k = "projects" then some (.projTable projects) else st2.datastore k })
  | some (.qres _) => .error (.typeError "argument after ** must be a mapping")
  | none => .error (.keyError "projects")

/-- Jira.populate_from_jql: only a missing (None) query is rejected, with a
ValueError, before any mutation; otherwise the search runs with no cap,
the issues are wrapped, and the JQLResult is stored in the flat datastore
directly under the label — the same dictionary that holds the projects
table under the key projects. -/
def populate_from_jql (client : Client) (today : Int) (query : Option String)
    (label : String) (st : JiraState) : Except PyErr (JQLResultRec × JiraState) :=
  match query with
  | none => .error (.valueError "query string is required to get issues")
  | some q =>
    let issues := (client.search_issues q none).map (mkJiraIssue today)
    let query_result : JQLResultRec := { query := q, label := label, issuesRef := .own issues }
    .ok (query_result,
      { st with datastore := fun k =>
          if k = query_result.label then some (.qres query_result) else st.datastore k })

/-- Jira.get_query_result: a bare datastore lookup; an absent label
propagates the raw KeyError of the dictionary access. -/
def get_query_result (st : JiraState) (label : String) : Except PyErr StoreVal :=
  match st.datastore label with
  | some v => .ok v
  | none => .error (.keyError label)

/-- Outcome of Jira.get_project: a found project, an error object RETURNED
as the normal result (the source returns, not raises, the KeyError it
builds), or a genuinely raised exception. -/
inductive GetProjectResult where
  | found (p : JiraProjectRec)
  | returnedError (e : PyErr)
  | raised (e : PyErr)

/-- The message of the KeyError value that get_project returns. -/
def noProjectMsg (pid : String) : String :=
  "No project with key " ++ pid ++ " in the cache. Have you called Jira.populate_projects([\"" ++ pid ++ "\"])?"

/-- Jira.get_project: both KeyError paths (projects entry missing, or pid
missing in the projects table, or a lookup in the empty issues-style dict)
are caught and a new KeyError value naming the pid is returned — not
raised.  If the projects entry was clobbered with a JQLResult, subscripting
it raises an uncaught TypeError. -/
def get_project (st : JiraState) (pid : String) : GetProjectResult :=
  match st.datastore "projects" with
  | some (.projTable m) =>
      match m pid with
      | some p => .found p
      | none => .returnedError (.keyError (noProjectMsg pid))
  | some .issueTable => .returnedError (.keyError (noProjectMsg pid))
  | some (.qres _) => .raised (.typeError "JQLResult object is not subscriptable")
  | none => .returnedError (.keyError (noProjectMsg pid))

/-- Concrete creation timestamp (2024-01-01, a Monday) for witnesses. -/
def cxCreated : DateTime := ⟨19723, 0⟩

/-- A concrete changelog with one status-change event on 2024-01-03. -/
def cxHistories : List History := [⟨⟨19725, 0⟩, [⟨"status", "In Progress"⟩]⟩]

/-- A concrete raw issue with no changelog and no resolution date. -/
def cxRawIssue : RawIssue :=
  { id := "10001", key := "P1-1", permalink := "https://jira.example/browse/P1-1"
    fields :=
      { issuetype := some "Story", summary := "a summary", labels := []
        created := ⟨19723, 0⟩, updated := ⟨19724, 0⟩
        resolution := none, resolutiondate := none, assignee := none
        description := none, priority := "High: Must fix", status := "Open"
        fixVersions := [] }
    changelog := none }

/-- A concrete client: one ticket for project P1, none for anything else. -/
def cxClient : Client :=
  { project := fun pid => { key := pid, name := "Project " ++ pid }
    search_issues := fun q _ => if q = projectQuery "P1" then [cxRawIssue] else [] }

-- ------------------------------------------------------------------
-- Helper lemmas
-- ------------------------------------------------------------------

theorem appendEntry_perm (l : List FlowEntry) (e : FlowEntry) :
    List.Perm (appendEntry l e) (l ++ [e]) :=
  List.perm_insertionSort entryRel _

theorem foldl_appendEntry_perm :
    ∀ (es l : List FlowEntry), List.Perm (es.foldl appendEntry l) (l ++ es)
  | [], l => by simp
  | e :: es, l => by
    have h1 := foldl_appendEntry_perm es (appendEntry l e)
    have h2 := (appendEntry_perm l e).append_right es
    simpa using h1.trans h2

theorem buildFlowLog_perm (created : DateTime) (hs : List History) (today : Int) :
    List.Perm (buildFlowLog created (some hs) today)
      (⟨created, "Created", none⟩ :: assignDurations today (statusEvents hs)) := by
  have h := foldl_appendEntry_perm (assignDurations today (statusEvents hs))
      (appendEntry [] ⟨created, "Created", none⟩)
  simpa [buildFlowLog, appendEntry] using h

theorem assignDurations_isSome (today : Int) :
    ∀ evs, ∀ e ∈ assignDurations today evs, e.duration.isSome
  | [], e, he => by simp [assignDurations] at he
  | [(t, s)], e, he => by
      simp only [assignDurations, List.mem_singleton] at he
      subst he; rfl
  | (t, s) :: (t2, s2) :: rest, e, he => by
      simp only [assignDurations, List.mem_cons] at he
      rcases he with rfl | he
      · rfl
      · exact assignDurations_isSome today ((t2, s2) :: rest) e he

theorem assignDurations_ne_nil (today : Int) :
    ∀ evs, evs ≠ [] → assignDurations today evs ≠ []
  | [], h => absurd rfl h
  | [(t, s)], _ => by simp [assignDurations]
  | (t, s) :: (t2, s2) :: rest, _ => by simp [assignDurations]

theorem assignDurations_getLast (today : Int) :
    ∀ evs, evs ≠ [] →
      (assignDurations today evs).getLast? =
        (evs.getLast?).map
          (fun p => (⟨p.1, p.2, some (np_busday_count p.1.days today)⟩ : FlowEntry))
  | [], h => absurd rfl h
  | [(t, s)], _ => by simp [assignDurations]
  | (t, s) :: (t2, s2) :: rest, _ => by
      have ih := assignDurations_getLast today ((t2, s2) :: rest) (by simp)
      have hnn := assignDurations_ne_nil today ((t2, s2) :: rest) (by simp)
      cases hd : assignDurations today ((t2, s2) :: rest) with
      | nil => exact absurd hd hnn
      | cons y ys =>
        have hstep : assignDurations today ((t, s) :: (t2, s2) :: rest) =
            ⟨t, s, some (np_busday_count t.days t2.days)⟩ ::
              assignDurations today ((t2, s2) :: rest) := rfl
        rw [hstep, hd, List.getLast?_cons_cons, ← hd, ih, List.getLast?_cons_cons]

theorem flowlog_append_ok_inv {log : List FlowEntry} {v : PyObj} {log2 : List FlowEntry}
    (h : FlowLog.append log v = .ok log2) :
    ∃ e, log2 = List.insertionSort entryRel (log ++ [e]) := by
  cases v with
  | nonDict t => simp [FlowLog.append] at h
  | dict d =>
    obtain ⟨ea, sv, dur⟩ := d
    cases ea with
    | none => simp [FlowLog.append] at h
    | some ea =>
      cases ea with
      | vDatetime dt =>
        cases sv with
        | none => simp [FlowLog.append] at h
        | some sv =>
          simp only [FlowLog.append] at h
          cases h
          exact ⟨⟨dt, pyStr sv, dur⟩, rfl⟩
      | vDate z => simp [FlowLog.append] at h
      | vStr s => simp [FlowLog.append] at h
      | vInt n => simp [FlowLog.append] at h
      | vNone => simp [FlowLog.append] at h

-- ------------------------------------------------------------------
-- Claims
-- ------------------------------------------------------------------

/-- C1, counterexample.  A ticket created 2024-01-01 with one status-change
event on 2024-01-03: after construction the flow timeline has two entries,
and the non-final (seeded Created) entry still has a null duration, so it
is false that every entry except the most recent has a non-null duration.
The loop variable tracking the previous item starts at None, so the seeded
entry is never closed. -/
theorem flow_closure_counterexample :
    statusEvents cxHistories ≠ [] ∧
    ¬(∀ e ∈ (buildFlowLog cxCreated (some cxHistories) 19730).dropLast, e.duration ≠ none) := by
  decide

/-- C1, amended.  For a ticket whose changelog holds at least one
status-change event: the constructed timeline is a permutation (the sorted
arrangement) of the seeded Created entry together with the status-change
entries; exactly one entry — the seeded one — has a null duration; every
entry with a null duration is the seeded Created entry; and the last
status-change event in history order is closed to today with
np_busday_count. -/
theorem flow_closure_amended (created : DateTime) (hs : List History) (today : Int)
    (hne : statusEvents hs ≠ []) :
    ((buildFlowLog created (some hs) today).countP (fun e => e.duration.isNone)) = 1 ∧
    (∀ e ∈ buildFlowLog created (some hs) today,
        e.duration.isNone → e = ⟨created, "Created", none⟩) ∧
    ((assignDurations today (statusEvents hs)).getLast? =
      ((statusEvents hs).getLast?).map
        (fun p => (⟨p.1, p.2, some (np_busday_count p.1.days today)⟩ : FlowEntry))) ∧
    List.Perm (buildFlowLog created (some hs) today)
      (⟨created, "Created", none⟩ :: assignDurations today (statusEvents hs)) := by
  have hperm := buildFlowLog_perm created hs today
  have hzero : (assignDurations today (statusEvents hs)).countP (fun e => e.duration.isNone) = 0 := by
    rw [List.countP_eq_zero]
    intro e he
    have := assignDurations_isSome today (statusEvents hs) e he
    simp [Option.isNone, Option.isSome] at this ⊢
    cases hduration : e.duration with
    | none => rw [hduration] at this; simp at this
    | some v => rfl
  refine ⟨?_, ?_, assignDurations_getLast today (statusEvents hs) hne, hperm⟩
  · rw [hperm.countP_eq]
    simp [List.countP_cons, hzero]
  · intro e he hnone
    have hmem := hperm.mem_iff.mp he
    rcases List.mem_cons.mp hmem with rfl | hmem2
    · rfl
    · have := assignDurations_isSome today (statusEvents hs) e hmem2
      rw [Option.isNone_iff_eq_none] at hnone
      rw [hnone] at this
      simp at this

/-- C1 amended, witness at the concrete ticket of the counterexample. -/
theorem flow_closure_amended_witness :
    statusEvents cxHistories ≠ [] ∧
    (((buildFlowLog cxCreated (some cxHistories) 19730).countP (fun e => e.duration.isNone)) = 1 ∧
     (∀ e ∈ buildFlowLog cxCreated (some cxHistories) 19730,
         e.duration.isNone → e = ⟨cxCreated, "Created", none⟩) ∧
     ((assignDurations 19730 (statusEvents cxHistories)).getLast? =
       ((statusEvents cxHistories).getLast?).map
         (fun p => (⟨p.1, p.2, some (np_busday_count p.1.days 19730)⟩ : FlowEntry))) ∧
     List.Perm (buildFlowLog cxCreated (some cxHistories) 19730)
       (⟨cxCreated, "Created", none⟩ :: assignDurations 19730 (statusEvents cxHistories))) :=
  ⟨by decide, flow_closure_amended cxCreated cxHistories 19730 (by decide)⟩

/-- C2, code bug.  cycleTime passes the stored full created datetime (and
the raw resolutiondate string or None) straight to numpy busday_count, so
it raises for every ticket — in particular, for an unresolved ticket it
raises instead of returning the documented 0. -/
theorem cycleTime_raises :
    (∀ t : JiraIssueRec, cycleTime t =
      Except.error (PyErr.typeError
        "Iterator operand dtype could not be cast from datetime64 us to datetime64 D")) ∧
    (mkJiraIssue 19730 cxRawIssue).resolutiondate = none ∧
    cycleTime (mkJiraIssue 19730 cxRawIssue) ≠ Except.ok 0 :=
  ⟨fun _ => rfl, rfl, fun h => Except.noConfusion h⟩

/-- C3.  Whenever FlowLog.append succeeds, the returned timeline is sorted
ascending by entered_at (non-strictly: entries with equal timestamps are
accepted and ordered stably, never a sort failure, since the comparator is
total). -/
theorem flowlog_append_sorted (log : List FlowEntry) (v : PyObj) (log2 : List FlowEntry)
    (h : FlowLog.append log v = .ok log2) : log2.Sorted entryRel := by
  obtain ⟨e, rfl⟩ := flowlog_append_ok_inv h
  exact List.sorted_insertionSort entryRel _

/-- C3, witness: appending a valid entry to an out-of-order two-entry log
(with a timestamp tie against one of them) succeeds and yields a sorted
log. -/
theorem flowlog_append_sorted_witness :
    FlowLog.append
        [⟨⟨19725, 0⟩, "A", none⟩, ⟨⟨19723, 0⟩, "B", some 1⟩]
        (.dict ⟨some (.vDatetime ⟨19723, 0⟩), some (.vStr "C"), none⟩) =
      .ok [⟨⟨19723, 0⟩, "B", some 1⟩, ⟨⟨19723, 0⟩, "C", none⟩, ⟨⟨19725, 0⟩, "A", none⟩] ∧
    ([⟨⟨19723, 0⟩, "B", some 1⟩, ⟨⟨19723, 0⟩, "C", none⟩,
      (⟨⟨19725, 0⟩, "A", none⟩ : FlowEntry)] : List FlowEntry).Sorted entryRel :=
  ⟨by rfl,
   flowlog_append_sorted
     [⟨⟨19725, 0⟩, "A", none⟩, ⟨⟨19723, 0⟩, "B", some 1⟩]
     (.dict ⟨some (.vDatetime ⟨19723, 0⟩), some (.vStr "C"), none⟩)
     [⟨⟨19723, 0⟩, "B", some 1⟩, ⟨⟨19723, 0⟩, "C", none⟩, ⟨⟨19725, 0⟩, "A", none⟩]
     (by rfl)⟩

/-- C9, counterexample.  2024-01-06 is a Saturday and 2024-01-08 a Monday:
the half-open weekday count is 0, not the 2 the claim states; and with the
end date one day before the start date over a weekend the result is 0, not
negative. -/
theorem busday_counterexample :
    np_busday_count (daysFromCivil 2024 1 6) (daysFromCivil 2024 1 8) = 0 ∧
    np_busday_count (daysFromCivil 2024 1 6) (daysFromCivil 2024 1 8) ≠ 2 ∧
    np_busday_count (daysFromCivil 2024 1 7) (daysFromCivil 2024 1 6) = 0 := by
  decide

/-- C9, amended.  Weekday (Mon to Fri) counting at date granularity over
the half-open interval from start to end, no holidays: Mon 2024-01-01 to
Fri 2024-01-05 gives 4; Sat 2024-01-06 to Mon 2024-01-08 gives 0; and when
the end precedes the start the result is the negated weekday count of the
swapped interval, hence non-positive (negative exactly when that interval
contains a weekday). -/
theorem busday_amended (s e : Int) (h : e < s) :
    np_busday_count (daysFromCivil 2024 1 1) (daysFromCivil 2024 1 5) = 4 ∧
    np_busday_count (daysFromCivil 2024 1 6) (daysFromCivil 2024 1 8) = 0 ∧
    np_busday_count s e = -((countBusdays e (s - e).toNat : Nat) : Int) ∧
    np_busday_count s e ≤ 0 := by
  refine ⟨by decide, by decide, ?_, ?_⟩
  · unfold np_busday_count
    rw [if_neg (by omega)]
  · unfold np_busday_count
    rw [if_neg (by omega)]
    omega

/-- C9 amended, witness at Sunday 2024-01-07 back to Saturday 2024-01-06. -/
theorem busday_amended_witness :
    daysFromCivil 2024 1 6 < daysFromCivil 2024 1 7 ∧
    (np_busday_count (daysFromCivil 2024 1 1) (daysFromCivil 2024 1 5) = 4 ∧
     np_busday_count (daysFromCivil 2024 1 6) (daysFromCivil 2024 1 8) = 0 ∧
     np_busday_count (daysFromCivil 2024 1 7) (daysFromCivil 2024 1 6) =
       -((countBusdays (daysFromCivil 2024 1 6)
           (daysFromCivil 2024 1 7 - daysFromCivil 2024 1 6).toNat : Nat) : Int) ∧
     np_busday_count (daysFromCivil 2024 1 7) (daysFromCivil 2024 1 6) ≤ 0) :=
  ⟨by decide, busday_amended (daysFromCivil 2024 1 7) (daysFromCivil 2024 1 6) (by decide)⟩

/-- processProject, with its let bindings and field projections flattened. -/
theorem processProject_eq (client : Client) (today : Int)
    (acc : (String → Option JiraProjectRec) × JiraState) (pid : String) :
    processProject client today acc pid =
      (if (acc.snd.sharedIssues ++
            (client.search_issues (projectQuery pid) (some 10)).map (mkJiraIssue today)).length ≠ 0
       then
         (fun q => if q = pid then
             some ⟨projectQuery pid, (client.project pid).name, (client.project pid).key,
                   (client.project pid).name, IssuesRef.sharedDefault⟩
           else acc.fst q,
          { acc.snd with sharedIssues := acc.snd.sharedIssues ++
              (client.search_issues (projectQuery pid) (some 10)).map (mkJiraIssue today) })
       else
         (acc.fst,
          { acc.snd with sharedIssues := acc.snd.sharedIssues ++
              (client.search_issues (projectQuery pid) (some 10)).map (mkJiraIssue today) })) := rfl

theorem processProject_datastore (client : Client) (today : Int)
    (acc : (String → Option JiraProjectRec) × JiraState) (pid : String) :
    ((processProject client today acc pid).snd).datastore = acc.snd.datastore := by
  rw [processProject_eq]
  split <;> rfl

theorem getJira_datastore (client : Client) (today : Int) :
    ∀ (pids : List String) (acc : (String → Option JiraProjectRec) × JiraState),
      ((pids.foldl (processProject client today) acc).snd).datastore = acc.snd.datastore
  | [], _ => rfl
  | pid :: pids, acc => by
      rw [List.foldl_cons, getJira_datastore client today pids _, processProject_datastore]

theorem getJiraIssuesForProjects_datastore (client : Client) (today : Int)
    (pids : List String) (st : JiraState) :
    ((getJiraIssuesForProjects client today pids st).snd).datastore = st.datastore :=
  getJira_datastore client today pids (fun _ => none, st)

/-- C4.  The issues list of every JQLResult built without an explicit
issues argument is the one shared mutable default list.  Populating two
projects where the first yields k tickets and the second yields none still
records the second: its dereferenced issues list holds the k tickets of
the first project, and populate_projects stores it in the cache. -/
theorem shared_default_leak (client : Client) (today : Int) (p1 p2 : String) (k : Nat)
    (st : JiraState)
    (hshared : st.sharedIssues = [])
    (h1 : (client.search_issues (projectQuery p1) (some 10)).length = k)
    (hk : 0 < k)
    (h2 : client.search_issues (projectQuery p2) (some 10) = []) :
    ∃ proj,
      (getJiraIssuesForProjects client today [p1, p2] st).fst p2 = some proj ∧
      proj.issuesRef = IssuesRef.sharedDefault ∧
      (readIssues (getJiraIssuesForProjects client today [p1, p2] st).snd
          proj.issuesRef).length = k ∧
      (∀ old res,
        st.datastore "projects" = some (StoreVal.projTable old) →
        populate_projects client today [p1, p2] st = .ok res →
        ∃ m2, res.snd.datastore "projects" = some (StoreVal.projTable m2) ∧
          m2 p2 = res.fst p2 ∧ res.fst p2 = (getJiraIssuesForProjects client today [p1, p2] st).fst p2) := by
  have hk' : ¬ (k = 0) := by omega
  have hc1 : (st.sharedIssues ++
      (client.search_issues (projectQuery p1) (some 10)).map (mkJiraIssue today)).length ≠ 0 := by
    simp only [hshared, List.nil_append, List.length_map, h1]
    exact hk'
  have hc2 : ((st.sharedIssues ++
        (client.search_issues (projectQuery p1) (some 10)).map (mkJiraIssue today)) ++
      (client.search_issues (projectQuery p2) (some 10)).map (mkJiraIssue today)).length ≠ 0 := by
    simp only [hshared, h2, List.nil_append, List.map_nil, List.append_nil,
      List.length_map, h1]
    exact hk'
  have hmain : getJiraIssuesForProjects client today [p1, p2] st =
      (fun q => if q = p2 then
          some ⟨projectQuery p2, (client.project p2).name, (client.project p2).key,
                (client.project p2).name, IssuesRef.sharedDefault⟩
        else if q = p1 then
          some ⟨projectQuery p1, (client.project p1).name, (client.project p1).key,
                (client.project p1).name, IssuesRef.sharedDefault⟩
        else none,
       { st with sharedIssues := (st.sharedIssues ++
           (client.search_issues (projectQuery p1) (some 10)).map (mkJiraIssue today)) ++
           (client.search_issues (projectQuery p2) (some 10)).map (mkJiraIssue today) }) := by
    show processProject client today (processProject client today (fun _ => none, st) p1) p2 = _
    rw [processProject_eq client today (fun _ => none, st) p1]
    rw [if_pos hc1]
    rw [processProject_eq]
    rw [if_pos hc2]
  refine ⟨⟨projectQuery p2, (client.project p2).name, (client.project p2).key,
          (client.project p2).name, IssuesRef.sharedDefault⟩, ?_, rfl, ?_, ?_⟩
  · rw [hmain]
    simp
  · rw [hmain]
    simp only [readIssues, hshared, h2, List.nil_append, List.map_nil, List.append_nil,
      List.length_map]
    exact h1
  · intro old res hold hres
    have hds2 : (getJiraIssuesForProjects client today [p1, p2] st).snd.datastore "projects" =
        some (StoreVal.projTable old) := by
      rw [getJiraIssuesForProjects_datastore]
      exact hold
    simp only [populate_projects, hds2, Except.ok.injEq] at hres
    subst hres
    refine ⟨fun q =>
      match (getJiraIssuesForProjects client today [p1, p2] st).fst q with
      | some v => some v
      | none => old q, rfl, ?_, rfl⟩
    dsimp only
    rw [hmain]
    simp

/-- C4, witness: the concrete client with one P1 ticket and no P2 tickets,
on a fresh adapter state. -/
theorem shared_default_leak_witness :
    initJiraState.sharedIssues = [] ∧
    (cxClient.search_issues (projectQuery "P1") (some 10)).length = 1 ∧
    (0 : Nat) < 1 ∧
    cxClient.search_issues (projectQuery "P2") (some 10) = [] ∧
    (∃ proj,
      (getJiraIssuesForProjects cxClient 19730 ["P1", "P2"] initJiraState).fst "P2" = some proj ∧
      proj.issuesRef = IssuesRef.sharedDefault ∧
      (readIssues (getJiraIssuesForProjects cxClient 19730 ["P1", "P2"] initJiraState).snd
          proj.issuesRef).length = 1 ∧
      (∀ old res,
        initJiraState.datastore "projects" = some (StoreVal.projTable old) →
        populate_projects cxClient 19730 ["P1", "P2"] initJiraState = .ok res →
        ∃ m2, res.snd.datastore "projects" = some (StoreVal.projTable m2) ∧
          m2 "P2" = res.fst "P2" ∧
          res.fst "P2" =
            (getJiraIssuesForProjects cxClient 19730 ["P1", "P2"] initJiraState).fst "P2")) :=
  ⟨rfl, rfl, by decide, rfl,
   shared_default_leak cxClient 19730 "P1" "P2" 1 initJiraState rfl rfl (by decide) rfl⟩

/-- C5, counterexample.  P2 yields zero tickets in the fetch, yet after
populate_projects with P1 (one ticket) first, P2 is stored and get_project
finds it — the skip rule fails because the shared default list already
holds the P1 ticket. -/
theorem project_skip_counterexample :
    cxClient.search_issues (projectQuery "P2") (some 10) = [] ∧
    ∃ res, populate_projects cxClient 19730 ["P1", "P2"] initJiraState = .ok res ∧
      ∃ p, get_project res.snd "P2" = .found p := by
  refine ⟨rfl, ?_⟩
  exact ⟨_, rfl, _, rfl⟩

/-- C5, amended.  The zero-ticket skip holds when the shared default list
is empty at the time the project is processed: on such a state a
single-project populate with an empty fetch stores nothing, returns an
empty mapping, and a later get_project yields the not-found KeyError
value.  The merge semantics hold as stated in general: newly fetched
entries are added, existing keys are overwritten, unrelated keys and the
non-project entries of the datastore are untouched. -/
theorem populate_projects_amended (client : Client) (today : Int) (p : String)
    (st : JiraState) (m0 : String → Option JiraProjectRec)
    (hds : st.datastore "projects" = some (StoreVal.projTable m0))
    (hshared : st.sharedIssues = [])
    (hz : client.search_issues (projectQuery p) (some 10) = [])
    (hm0 : m0 p = none) :
    (∃ res, populate_projects client today [p] st = .ok res ∧
      res.fst = (fun _ => none) ∧
      get_project res.snd p = .returnedError (.keyError (noProjectMsg p))) ∧
    (∀ pids res2, populate_projects client today pids st = .ok res2 →
      ∃ m2, res2.snd.datastore "projects" = some (StoreVal.projTable m2) ∧
        (∀ q v, res2.fst q = some v → m2 q = some v) ∧
        (∀ q, res2.fst q = none → m2 q = m0 q) ∧
        (∀ key2, key2 ≠ "projects" → res2.snd.datastore key2 = st.datastore key2)) := by
  have hgen : ∀ pids res2, populate_projects client today pids st = .ok res2 →
      res2.fst = (getJiraIssuesForProjects client today pids st).fst ∧
      res2.snd.datastore = fun key2 =>
        if key2 = "projects" then
          some (StoreVal.projTable (fun q =>
            match (getJiraIssuesForProjects client today pids st).fst q with
            | some v => some v
            | none => m0 q))
        else (getJiraIssuesForProjects client today pids st).snd.datastore key2 := by
    intro pids res2 hres
    have hds2 : (getJiraIssuesForProjects client today pids st).snd.datastore "projects" =
        some (StoreVal.projTable m0) := by
      rw [getJiraIssuesForProjects_datastore]
      exact hds
    simp only [populate_projects, hds2, Except.ok.injEq] at hres
    subst hres
    exact ⟨rfl, rfl⟩
  constructor
  · have hsingle : (getJiraIssuesForProjects client today [p] st).fst = (fun _ => none) := by
      show (processProject client today (fun _ => none, st) p).fst = _
      rw [processProject_eq]
      rw [if_neg (by simp [hshared, hz])]
    have hds2 : (getJiraIssuesForProjects client today [p] st).snd.datastore "projects" =
        some (StoreVal.projTable m0) := by
      rw [getJiraIssuesForProjects_datastore]
      exact hds
    have hok : populate_projects client today [p] st =
        .ok ((getJiraIssuesForProjects client today [p] st).fst,
          { (getJiraIssuesForProjects client today [p] st).snd with
            datastore := fun key2 =>
              if key2 = "projects" then
                some (StoreVal.projTable (fun q =>
                  match (getJiraIssuesForProjects client today [p] st).fst q with
                  | some v => some v
                  | none => m0 q))
              else (getJiraIssuesForProjects client today [p] st).snd.datastore key2 }) := by
      simp only [populate_projects, hds2]
    refine ⟨_, hok, ?_, ?_⟩
    · exact hsingle
    · simp [get_project, hsingle, hm0]
  · intro pids res2 hres
    obtain ⟨hfst, hsnd⟩ := hgen pids res2 hres
    refine ⟨fun q =>
      match (getJiraIssuesForProjects client today pids st).fst q with
      | some v => some v
      | none => m0 q, ?_, ?_, ?_, ?_⟩
    · rw [hsnd]
      simp
    · intro q v hv
      rw [hfst] at hv
      dsimp only
      rw [hv]
    · intro q hq
      rw [hfst] at hq
      dsimp only
      rw [hq]
    · intro key2 hkey2
      rw [hsnd]
      simp only [hkey2, if_false, if_neg hkey2]
      rw [getJiraIssuesForProjects_datastore]

/-- C5 amended, witness: a fresh state and the concrete client, populating
only P2, whose fetch is empty. -/
theorem populate_projects_amended_witness :
    initJiraState.datastore "projects" = some (StoreVal.projTable (fun _ => none)) ∧
    initJiraState.sharedIssues = [] ∧
    cxClient.search_issues (projectQuery "P2") (some 10) = [] ∧
    (fun _ => (none : Option JiraProjectRec)) "P2" = none ∧
    ((∃ res, populate_projects cxClient 19730 ["P2"] initJiraState = .ok res ∧
      res.fst = (fun _ => none) ∧
      get_project res.snd "P2" = .returnedError (.keyError (noProjectMsg "P2"))) ∧
    (∀ pids res2, populate_projects cxClient 19730 pids initJiraState = .ok res2 →
      ∃ m2, res2.snd.datastore "projects" = some (StoreVal.projTable m2) ∧
        (∀ q v, res2.fst q = some v → m2 q = some v) ∧
        (∀ q, res2.fst q = none → m2 q = (fun _ => (none : Option JiraProjectRec)) q) ∧
        (∀ key2, key2 ≠ "projects" → res2.snd.datastore key2 = initJiraState.datastore key2))) :=
  ⟨rfl, rfl, rfl, rfl,
   populate_projects_amended cxClient 19730 "P2" initJiraState (fun _ => none) rfl rfl rfl rfl⟩

/-- C6, counterexample.  populate_from_jql with the label projects clobbers
the projects table in the shared flat datastore: afterwards no projects
table is stored under that key and get_project raises an uncaught
TypeError. -/
theorem jql_label_projects_counterexample :
    ∃ res, populate_from_jql cxClient 19730 (some "dummy") "projects" initJiraState = .ok res ∧
      res.snd.datastore "projects" = some (StoreVal.qres ⟨"dummy", "projects", .own []⟩) ∧
      (∀ m, res.snd.datastore "projects" ≠ some (StoreVal.projTable m)) ∧
      get_project res.snd "P1" = .raised (.typeError "JQLResult object is not subscriptable") := by
  refine ⟨_, rfl, rfl, ?_, rfl⟩
  intro m h
  simp at h

/-- C6, amended.  For every present query and every label other than the
literal string projects, populate_from_jql stores the result under the
label (overwriting any prior entry there), leaves the projects mapping
unchanged, and leaves every other datastore key unchanged; with the label
projects the projects mapping itself is overwritten (see the
counterexample). -/
theorem populate_from_jql_frame (client : Client) (today : Int) (q label : String)
    (st : JiraState) (hlabel : label ≠ "projects") :
    ∃ qr st2, populate_from_jql client today (some q) label st = .ok (qr, st2) ∧
      qr = ⟨q, label, IssuesRef.own ((client.search_issues q none).map (mkJiraIssue today))⟩ ∧
      st2.datastore label = some (.qres qr) ∧
      st2.datastore "projects" = st.datastore "projects" ∧
      (∀ k2, k2 ≠ label → st2.datastore k2 = st.datastore k2) := by
  refine ⟨_, _, rfl, rfl, ?_, ?_, ?_⟩
  · simp
  · simp only []
    rw [if_neg (Ne.symm hlabel)]
  · intro k2 hk2
    simp only []
    rw [if_neg hk2]

/-- C6 amended, witness at a concrete query and label. -/
theorem populate_from_jql_frame_witness :
    ("mylabel" : String) ≠ "projects" ∧
    (∃ qr st2, populate_from_jql cxClient 19730 (some "dummy") "mylabel" initJiraState =
        .ok (qr, st2) ∧
      qr = ⟨"dummy", "mylabel",
        IssuesRef.own ((cxClient.search_issues "dummy" none).map (mkJiraIssue 19730))⟩ ∧
      st2.datastore "mylabel" = some (.qres qr) ∧
      st2.datastore "projects" = initJiraState.datastore "projects" ∧
      (∀ k2, k2 ≠ "mylabel" → st2.datastore k2 = initJiraState.datastore k2)) :=
  ⟨by decide, populate_from_jql_frame cxClient 19730 "dummy" "mylabel" initJiraState (by decide)⟩

/-- C7, counterexample.  The source only rejects a missing (None) query:
the empty string passes the check, the search runs, and the result is
stored — the cache is mutated and no InvalidQuery error is raised. -/
theorem invalid_query_counterexample :
    ∃ res, populate_from_jql cxClient 19730 (some "") "JQL" initJiraState = .ok res ∧
      initJiraState.datastore "JQL" = none ∧
      res.snd.datastore "JQL" = some (StoreVal.qres ⟨"", "JQL", .own []⟩) :=
  ⟨_, rfl, rfl, rfl⟩

/-- C7, amended.  populate_from_jql fails with the ValueError (the
InvalidQuery of the spec) exactly when the query is absent (None), and the
failure happens before any mutation, so the cache is untouched; an empty
string is not rejected (see the counterexample). -/
theorem invalid_query_amended (client : Client) (today : Int) (label : String)
    (st : JiraState) :
    populate_from_jql client today none label st =
      .error (.valueError "query string is required to get issues") := rfl

/-- C8, counterexample.  On a fresh state, get_query_result of an absent
label propagates the raw KeyError of the dictionary lookup (carrying only
the bare key, no remediation message), and get_project of an absent id
does not raise at all — it returns its KeyError as an ordinary value. -/
theorem notfound_counterexample :
    get_query_result initJiraState "A" = .error (.keyError "A") ∧
    (∀ e, get_project initJiraState "P9" ≠ .raised e) ∧
    "A" ≠ noProjectMsg "A" := by
  refine ⟨rfl, ?_, by decide⟩
  intro e h
  rw [show get_project initJiraState "P9" =
      .returnedError (.keyError (noProjectMsg "P9")) from rfl] at h
  cases h

/-- C8, amended.  For a pid absent from the projects table, get_project
returns — as its ordinary result, without raising — a KeyError value whose
message names the missing pid; for a label absent from the datastore,
get_query_result propagates the raw KeyError of the lookup. -/
theorem get_lookup_amended (st : JiraState) (pid label : String)
    (m : String → Option JiraProjectRec)
    (hm : st.datastore "projects" = some (StoreVal.projTable m))
    (hpid : m pid = none) (hlab : st.datastore label = none) :
    get_project st pid = .returnedError (.keyError (noProjectMsg pid)) ∧
    get_query_result st label = .error (.keyError label) := by
  constructor
  · unfold get_project
    rw [hm]
    simp [hpid]
  · unfold get_query_result
    rw [hlab]

/-- C8 amended, witness on a fresh state. -/
theorem get_lookup_amended_witness :
    initJiraState.datastore "projects" = some (StoreVal.projTable (fun _ => none)) ∧
    (fun _ => (none : Option JiraProjectRec)) "P9" = none ∧
    initJiraState.datastore "B" = none ∧
    (get_project initJiraState "P9" = .returnedError (.keyError (noProjectMsg "P9")) ∧
     get_query_result initJiraState "B" = .error (.keyError "B")) :=
  ⟨rfl, rfl, rfl, get_lookup_amended initJiraState "P9" "B" (fun _ => none) rfl rfl rfl⟩

/-- C10, code bug.  An entry missing the entered_at key raises an uncaught
raw KeyError (the membership check on the keys is computed and discarded),
contradicting the documented TypeError; an entry whose entered_at is not a
timestamp does raise the documented TypeError.  In both cases nothing is
appended, so the timeline is unchanged. -/
theorem flowlog_missing_key_bug :
    FlowLog.append [] (.dict ⟨none, some (.vStr "Done"), none⟩) =
      .error (.keyError "entered_at") ∧
    FlowLog.append [⟨⟨19723, 0⟩, "Created", none⟩]
        (.dict ⟨some (.vInt 5), some (.vStr "X"), none⟩) =
      .error (.typeError "Flow log items must have a entered_at datetime. Got: 5") ∧
    FlowLog.append [] (.dict ⟨none, none, none⟩) = .error (.keyError "entered_at") :=
  ⟨rfl, rfl, rfl⟩
